import Mathlib

/-!
Verification of the CryptEx trading-decision core against its specification.

The development shallowly embeds the three core components of the repository:

* `cryptex/strategy/simple_signal.py` — the moving-average signal engine
  (`SimpleSignalStrategy.compute_ma`, `SimpleSignalStrategy.generate`);
* `cryptex/data/market_data.py` — the TTL market-data cache
  (`MarketDataCache`, `MarketDataService.get_klines`,
  `MarketDataService.get_ticker_price`);
* `cryptex/execution/order_manager.py` — the order guard
  (`OrderManager.has_open_orders`, `OrderManager._is_on_cooldown`,
  `OrderManager._record_order`, `OrderManager.execute`).

Python floats are modelled as rationals (exact arithmetic on the values the
code manipulates), wall-clock reads (`time.time()`) as explicit rational
parameters, and each network call to the exchange collaborator as an
oracle value of type `Except BinanceClientError α` supplied per call site.
Logging and on-disk persistence are pure side effects with no influence on
the cached or returned data and are elided.
-/

/- Batteries marks rational arithmetic `@[irreducible]`, which blocks kernel
evaluation of concrete cache/cooldown computations by `decide`; restore the
default reducibility for this development. -/
set_option allowUnsafeReducibility true in
attribute [semireducible] Rat.inv Rat.mul Rat.add Rat.sub Rat.ofScientific

namespace Cryptex

/-- `Signal` from `cryptex/strategy/simple_signal.py`: discrete trading
decision. -/
inductive Signal
  | LONG
  | SHORT
  | HOLD
deriving DecidableEq, Repr

/-- `Candle` from `cryptex/data/market_data.py`: one OHLCV bar.
Python floats are modelled as `ℚ`, the millisecond timestamp as `ℤ`. -/
structure Candle where
  open_time : ℤ
  «open» : ℚ
  high : ℚ
  low : ℚ
  close : ℚ
  volume : ℚ
deriving DecidableEq, Repr

/-- `SimpleSignalStrategy` from `cryptex/strategy/simple_signal.py`.
The constructor rejects `ma_period < 2`; theorems about a constructed
strategy therefore carry the hypothesis `2 ≤ ma_period`. -/
structure SimpleSignalStrategy where
  ma_period : ℕ
deriving DecidableEq, Repr

/-- `SimpleSignalStrategy.compute_ma`: simple moving average of closes of
the last `ma_period` candles (`candles[-ma_period:]` is
`List.drop (candles.length - ma_period)`), or `none` when there is not
enough history.  As in the source, the sum is divided by the length of the
selected slice. -/
def compute_ma (st : SimpleSignalStrategy) (candles : List Candle) : Option ℚ :=
  if candles.length < st.ma_period then
    none
  else
    let closes := (candles.drop (candles.length - st.ma_period)).map Candle.close
    some (closes.sum / (closes.length : ℚ))

/-- `SimpleSignalStrategy.generate`: `HOLD` on an empty sequence
(`candles.getLast? = none` exactly when `candles = []`), `HOLD` when
`compute_ma` yields no value, otherwise the last close is compared with the
moving average. -/
def generate (st : SimpleSignalStrategy) (candles : List Candle) : Signal :=
  match candles.getLast? with
  | none => Signal.HOLD
  | some lastC =>
    match compute_ma st candles with
    | none => Signal.HOLD
    | some ma =>
      if lastC.close > ma then Signal.LONG
      else if lastC.close < ma then Signal.SHORT
      else Signal.HOLD

/-- A candle whose close is `x`; the other fields are irrelevant to the
signal engine. -/
def candleOfClose (x : ℚ) : Candle :=
  { open_time := 0, «open» := x, high := x, low := x, close := x, volume := 1 }

/-! ## Order guard (`cryptex/execution/order_manager.py`) -/

/-- The payload of a successful `place_market_order` call: a record that may
carry an `orderId` field (`result.get("orderId", "")` tolerates absence). -/
structure SubmitResponse where
  orderId : Option String
deriving DecidableEq, Repr

/-- An open-order record returned by `get_open_orders`; only the number of
records matters to the guard. -/
structure OpenOrder where
  orderId : String
deriving DecidableEq, Repr

/-- A raw exchange response attached to an error or a result. -/
inductive RawResponse
  | submitR (r : SubmitResponse)
  | httpR (status : ℕ)
deriving DecidableEq, Repr

/-- `BinanceClientError` from `cryptex/exchange/client.py`: the single typed
error of the exchange collaborator, carrying a human-readable message
(`str(e)`) and an optional raw response. -/
structure BinanceClientError where
  message : String
  response : Option RawResponse := none
deriving DecidableEq, Repr

/-- `OrderResult` from `cryptex/execution/order_manager.py`. -/
structure OrderResult where
  success : Bool
  order_id : Option String := none
  message : String := ""
  response : Option RawResponse := none
deriving DecidableEq, Repr

/-- `OrderManager`: configuration plus the mutable `_last_order_time`
dictionary, modelled as an association list read through `List.lookup`
(first entry for a key wins, matching dictionary update-by-overwrite when
updates are consed at the front).  `time.time()` values are rationals. -/
structure OrderManager where
  symbol : String
  position_size : ℚ
  order_type : String
  order_cooldown_seconds : ℕ
  last_order_time : List (String × ℚ)
deriving DecidableEq, Repr

/-- The per-call behaviour of the exchange collaborator: what
`get_open_orders` and `place_market_order` would return if called. -/
structure ExchangeBehavior where
  openOrders : Except BinanceClientError (List OpenOrder)
  submit : Except BinanceClientError SubmitResponse

/-- `OrderManager.has_open_orders`: `len(orders) > 0` on success, `True`
(assume unsafe) when the query raises `BinanceClientError`. -/
def has_open_orders (resp : Except BinanceClientError (List OpenOrder)) : Bool :=
  match resp with
  | .ok orders => decide (0 < orders.length)
  | .error _ => true

/-- `OrderManager._is_on_cooldown`: `time.time() - last < cooldown_seconds`
with `last = self._last_order_time.get(side, 0)`. -/
def is_on_cooldown (m : OrderManager) (side : String) (now : ℚ) : Bool :=
  let last := (m.last_order_time.lookup side).getD 0
  decide (now - last < (m.order_cooldown_seconds : ℚ))

/-- `OrderManager._record_order`: `_last_order_time[side] = time.time()`. -/
def record_order (m : OrderManager) (side : String) (now : ℚ) : OrderManager :=
  { m with last_order_time := (side, now) :: m.last_order_time }

/-- Side mapping inside `execute`: `"BUY" if signal == Signal.LONG else
"SELL"`. -/
def sideOf (signal : Signal) : String :=
  if signal = Signal.LONG then "BUY" else "SELL"

/-- The f-string of the open-orders skip branch. -/
def openOrdersMsg (m : OrderManager) (side : String) : String :=
  "Skipping " ++ side ++ ": open orders exist for " ++ m.symbol

/-- The f-string of the cooldown skip branch. -/
def cooldownMsg (m : OrderManager) (side : String) : String :=
  "Skipping " ++ side ++ ": cooldown active (" ++
    toString m.order_cooldown_seconds ++ "s)"

/-- The outcome of one `execute` call: the returned `OrderResult`, the
manager state after the call, and whether `place_market_order` was
invoked. -/
structure ExecOutcome where
  result : OrderResult
  state : OrderManager
  submitted : Bool
deriving DecidableEq, Repr

/-- `OrderManager.execute`, sequential (one call running alone).  `tCheck`
is the wall clock at the cooldown check, `tRecord` the wall clock at
`_record_order`; the collaborator's answers for this call are `beh`.  Every
path returns an `OrderResult`: the only exception the collaborator can
raise at the submit site, `BinanceClientError`, is caught and converted. -/
def execute (m : OrderManager) (signal : Signal) (beh : ExchangeBehavior)
    (tCheck tRecord : ℚ) : ExecOutcome :=
  if signal = Signal.HOLD then
    ⟨{ success := true, message := "HOLD - no order placed" }, m, false⟩
  else
    let side := sideOf signal
    if has_open_orders beh.openOrders then
      ⟨{ success := false, message := openOrdersMsg m side }, m, false⟩
    else if is_on_cooldown m side tCheck then
      ⟨{ success := false, message := cooldownMsg m side }, m, false⟩
    else
      match beh.submit with
      | .ok r =>
        let m' := record_order m side tRecord
        let oid := r.orderId.getD ""
        ⟨{ success := true, order_id := some oid,
           message := "Order placed: " ++ oid,
           response := some (.submitR r) }, m', true⟩
      | .error e =>
        ⟨{ success := false, message := e.message,
           response := e.response }, m, true⟩

/-- The string `s` mentions the word "cooldown". -/
def mentionsCooldown (s : String) : Prop :=
  "cooldown".data <:+: s.data

/-! ## Market data cache (`cryptex/data/market_data.py`) -/

/-- `MarketDataCache`: the candle list, the optional ticker price, and one
`last_updated` stamp shared by both, plus the TTL. -/
structure MarketDataCache where
  candles : List Candle
  ticker_price : Option ℚ
  last_updated : ℚ
  ttl_seconds : ℕ
deriving DecidableEq, Repr

/-- `MarketDataCache.is_stale`: `time.time() - last_updated > ttl_seconds`. -/
def is_stale (c : MarketDataCache) (now : ℚ) : Bool :=
  decide ((c.ttl_seconds : ℚ) < now - c.last_updated)

/-- `MarketDataCache.update_candles`: replace the candle list in full and
stamp `last_updated`. -/
def update_candles (c : MarketDataCache) (candles : List Candle) (now : ℚ) :
    MarketDataCache :=
  { c with candles := candles, last_updated := now }

/-- `MarketDataCache.update_ticker`: replace the price and stamp
`last_updated`. -/
def update_ticker (c : MarketDataCache) (price : ℚ) (now : ℚ) :
    MarketDataCache :=
  { c with ticker_price := some price, last_updated := now }

/-- Python truthiness of `self._cache.ticker_price`: `None` and `0.0` are
falsy, every other float is truthy. -/
def truthyPrice (tp : Option ℚ) : Bool :=
  match tp with
  | none => false
  | some p => decide (p ≠ 0)

/-- The outcome of one `get_klines` call: the value returned to the caller
(or the propagated `BinanceClientError`), the cache afterwards, and whether
the exchange collaborator was called.  Each call consults the collaborator
at most once. -/
structure KlinesOutcome where
  result : Except BinanceClientError (List Candle)
  cache : MarketDataCache
  fetched : Bool
deriving Repr

/-- `MarketDataService.get_klines`: serve the cached list when
`force_refresh` is false, the cache is not stale and the cached list is
non-empty; otherwise fetch, replace the list in full, stamp the entry.  The
fetch oracle (`client.get_klines` followed by the `Candle.from_binance`
parse, which touches neither the cache nor the error) is `fetch`; a raised
`BinanceClientError` propagates unmodified and leaves the cache untouched.
Persisting to disk is a side effect with no influence on the cache and is
elided. -/
def get_klines (c : MarketDataCache) (force_refresh : Bool) (now : ℚ)
    (fetch : Except BinanceClientError (List Candle)) : KlinesOutcome :=
  if !force_refresh && !is_stale c now && !c.candles.isEmpty then
    ⟨.ok c.candles, c, false⟩
  else
    match fetch with
    | .ok candles => ⟨.ok candles, update_candles c candles now, true⟩
    | .error e => ⟨.error e, c, true⟩

/-- The outcome of one `get_ticker_price` call. -/
structure TickerOutcome where
  result : Except BinanceClientError ℚ
  cache : MarketDataCache
  fetched : Bool
deriving Repr

/-- `MarketDataService.get_ticker_price`: serve the cached price when
`force_refresh` is false, the cache is not stale and the cached price is
truthy (not `None`, not exactly zero); otherwise fetch
(`float(data["price"])` is the oracle's value), stamp the entry. -/
def get_ticker_price (c : MarketDataCache) (force_refresh : Bool) (now : ℚ)
    (fetch : Except BinanceClientError ℚ) : TickerOutcome :=
  if !force_refresh && !is_stale c now && truthyPrice c.ticker_price then
    ⟨.ok ((c.ticker_price).getD 0), c, false⟩
  else
    match fetch with
    | .ok p => ⟨.ok p, update_ticker c p now, true⟩
    | .error e => ⟨.error e, c, true⟩

/-- One call in a history of cache accesses: a `get_klines` call or a
`get_ticker_price` call, with its wall-clock time and its fetch oracle. -/
inductive CacheOp
  | candlesOp (force : Bool) (now : ℚ) (fetch : Except BinanceClientError (List Candle))
  | quoteOp (force : Bool) (now : ℚ) (fetch : Except BinanceClientError ℚ)

/-- Run one cache access; return the cache afterwards and whether the
exchange collaborator was called. -/
def stepOp (c : MarketDataCache) : CacheOp → MarketDataCache × Bool
  | .candlesOp force now fetch =>
    let o := get_klines c force now fetch
    (o.cache, o.fetched)
  | .quoteOp force now fetch =>
    let o := get_ticker_price c force now fetch
    (o.cache, o.fetched)

/-- Run a history of cache accesses; return the final cache and, for each
call in order, whether it called the exchange collaborator. -/
def runOps (c : MarketDataCache) : List CacheOp → MarketDataCache × List Bool
  | [] => (c, [])
  | op :: rest =>
    let (c', f) := stepOp c op
    let (c'', fs) := runOps c' rest
    (c'', f :: fs)

/-! ## Concurrent `execute` calls

`OrderManager.execute` is an `async` method with no lock; under asyncio a
running call can only be interleaved with another at its `await`
expressions: the `get_open_orders` network call inside `has_open_orders`
and the `place_market_order` network call.  The code between two awaits
runs atomically.  `TaskPhase` names the suspension points of one `execute`
call; `stepTask` runs the atomic segment from one suspension point to the
next, exactly mirroring the statements of `execute`. -/

/-- The suspension points of one `execute(signal)` call. -/
inductive TaskPhase
  | ready
  | atOpenOrders (side : String)
  | atSubmit (side : String)
  | finished (r : OrderResult)
deriving DecidableEq, Repr

/-- The per-task immutable inputs: its signal and what its two network
calls return. -/
structure TaskInput where
  signal : Signal
  beh : ExchangeBehavior

/-- Run one atomic segment of one `execute` call against the shared
manager state.  Returns the new phase, the shared state afterwards, and
whether this segment initiated the `place_market_order` network call.
`now` is the wall clock during the segment. -/
def stepTask (inp : TaskInput) (m : OrderManager) (ph : TaskPhase) (now : ℚ) :
    TaskPhase × OrderManager × Bool :=
  match ph with
  | .ready =>
    if inp.signal = Signal.HOLD then
      (.finished { success := true, message := "HOLD - no order placed" }, m, false)
    else
      (.atOpenOrders (sideOf inp.signal), m, false)
  | .atOpenOrders side =>
    if has_open_orders inp.beh.openOrders then
      (.finished { success := false, message := openOrdersMsg m side }, m, false)
    else if is_on_cooldown m side now then
      (.finished { success := false, message := cooldownMsg m side }, m, false)
    else
      (.atSubmit side, m, true)
  | .atSubmit side =>
    match inp.beh.submit with
    | .ok r =>
      let m' := record_order m side now
      let oid := r.orderId.getD ""
      (.finished { success := true, order_id := some oid,
                   message := "Order placed: " ++ oid,
                   response := some (.submitR r) }, m', false)
    | .error e =>
      (.finished { success := false, message := e.message,
                   response := e.response }, m, false)
  | .finished r => (.finished r, m, false)

/-- Two `execute` calls A and B sharing one `OrderManager`: the shared
state, each task's phase, and whether each has initiated its
`place_market_order` call. -/
structure ConcSys where
  mgr : OrderManager
  taskA : TaskPhase
  taskB : TaskPhase
  subA : Bool
  subB : Bool
deriving DecidableEq, Repr

/-- Advance the chosen task (`true` = A, `false` = B) by one atomic
segment at wall-clock time `now`. -/
def schedStep (inA inB : TaskInput) (s : ConcSys) (who : Bool) (now : ℚ) :
    ConcSys :=
  if who then
    let (ph, m, sub) := stepTask inA s.mgr s.taskA now
    { s with mgr := m, taskA := ph, subA := s.subA || sub }
  else
    let (ph, m, sub) := stepTask inB s.mgr s.taskB now
    { s with mgr := m, taskB := ph, subB := s.subB || sub }

/-- Run a schedule: a list of (which task, wall-clock time) scheduler
decisions. -/
def runSched (inA inB : TaskInput) (s : ConcSys) : List (Bool × ℚ) → ConcSys
  | [] => s
  | (who, now) :: rest => runSched inA inB (schedStep inA inB s who now) rest

/-- The initial concurrent state: both calls ready, nothing submitted. -/
def initConc (m : OrderManager) : ConcSys :=
  { mgr := m, taskA := .ready, taskB := .ready, subA := false, subB := false }

/-- Whether a task has finished with a successful `OrderResult`. -/
def finishedSuccess : TaskPhase → Bool
  | .finished r => r.success
  | _ => false

/-! ## Theorems -/

/-- C4: for every candle sequence and every configured period ≥ 2,
`generate` returns `HOLD` when the sequence is empty or shorter than the
period; otherwise, with `ma` the arithmetic mean of the close fields of the
last `ma_period` candles and `last_close` the close of the final candle,
`generate` returns `LONG` if `last_close > ma`, `SHORT` if
`last_close < ma`, and `HOLD` if `last_close = ma` (exact equality of the
modelled prices). -/
theorem C4_generate_ma_crossover (st : SimpleSignalStrategy)
    (h2 : 2 ≤ st.ma_period) (candles : List Candle) :
    (candles.length < st.ma_period → generate st candles = Signal.HOLD) ∧
    (∀ c, candles.getLast? = some c → st.ma_period ≤ candles.length →
      generate st candles =
        (if c.close >
            ((candles.drop (candles.length - st.ma_period)).map Candle.close).sum
              / (st.ma_period : ℚ) then
          Signal.LONG
         else if c.close <
            ((candles.drop (candles.length - st.ma_period)).map Candle.close).sum
              / (st.ma_period : ℚ) then
          Signal.SHORT
         else Signal.HOLD)) := by
  constructor
  · intro hlt
    cases hgl : candles.getLast? with
    | none => simp [generate, hgl]
    | some c => simp [generate, hgl, compute_ma, hlt]
  · intro c hc hge
    have hnl : ¬ candles.length < st.ma_period := not_lt.mpr hge
    have hlen :
        ((candles.drop (candles.length - st.ma_period)).map Candle.close).length
          = st.ma_period := by
      rw [List.length_map, List.length_drop, Nat.sub_sub_self hge]
    simp [generate, hc, compute_ma, hnl, hlen, Nat.cast_sub hge, sub_sub_cancel]

/-- Witness for C4: period 3, closes `[10, 20, 30]`; the mean of the last
three closes is 20, the last close 30 is above it, and `generate` says
`LONG`. -/
theorem C4_generate_ma_crossover_witness :
    generate ⟨3⟩ (List.map candleOfClose [10, 20, 30]) = Signal.LONG := by
  have h := (C4_generate_ma_crossover ⟨3⟩ (by decide)
      (List.map candleOfClose [10, 20, 30])).2 (candleOfClose 30)
      (by decide) (by decide)
  rw [h]
  decide

/-- The cooldown skip message always mentions the word "cooldown". -/
theorem mentionsCooldown_cooldownMsg (m : OrderManager) (side : String) :
    mentionsCooldown (cooldownMsg m side) := by
  show ("cooldown" : String).data <:+: (cooldownMsg m side).data
  refine ⟨("Skipping " ++ side ++ ": ").data,
    (" active (" ++ toString m.order_cooldown_seconds ++ "s)").data, ?_⟩
  have h : (": cooldown active (" : String).data
      = (": " : String).data ++ ("cooldown" : String).data
        ++ (" active (" : String).data := by decide
  simp [cooldownMsg, String.data_append, h]

/-- An `execute` call that submitted successfully left the state produced
by `_record_order` at the submit-response time. -/
theorem execute_success_state (m : OrderManager) (signal : Signal)
    (beh : ExchangeBehavior) (tc tr : ℚ) (hsig : signal ≠ Signal.HOLD)
    (hok : (execute m signal beh tc tr).result.success = true)
    (hsub : (execute m signal beh tc tr).submitted = true) :
    (execute m signal beh tc tr).state = record_order m (sideOf signal) tr := by
  by_cases hho : has_open_orders beh.openOrders
  · exfalso
    have h := hsub
    simp [execute, hsig, hho] at h
  · by_cases hco : is_on_cooldown m (sideOf signal) tc
    · exfalso
      have h := hsub
      simp [execute, hsig, hho, hco] at h
    · cases hs : beh.submit with
      | ok r => simp [execute, hsig, hho, hco, hs]
      | error e =>
        exfalso
        have h := hok
        simp [execute, hsig, hho, hco, hs] at h

/-- C1: if an `execute` call with a non-HOLD signal results in a successful
order submission recorded at time `t`, then a second `execute` call for the
same signal at a time `t'` within the cooldown window (with the open-orders
check reporting none) does not submit, returns a failed `OrderResult` whose
message mentions cooldown, and exactly one submission occurs across the two
sequential calls. -/
theorem C1_second_call_blocked_by_cooldown (m : OrderManager)
    (signal : Signal) (hsig : signal ≠ Signal.HOLD)
    (beh1 beh2 : ExchangeBehavior) (tc1 t t' tr2 : ℚ)
    (h1ok : (execute m signal beh1 tc1 t).result.success = true)
    (h1sub : (execute m signal beh1 tc1 t).submitted = true)
    (hopen2 : beh2.openOrders = Except.ok [])
    (hwin : t' - t < (m.order_cooldown_seconds : ℚ)) :
    (execute (execute m signal beh1 tc1 t).state signal beh2 t' tr2).result.success
        = false ∧
    (execute (execute m signal beh1 tc1 t).state signal beh2 t' tr2).submitted
        = false ∧
    mentionsCooldown
      (execute (execute m signal beh1 tc1 t).state signal beh2 t' tr2).result.message ∧
    (execute m signal beh1 tc1 t).submitted = true := by
  have hstate := execute_success_state m signal beh1 tc1 t hsig h1ok h1sub
  have hho2 : has_open_orders beh2.openOrders = false := by
    simp [has_open_orders, hopen2]
  have hcool2 :
      is_on_cooldown (record_order m (sideOf signal) t) (sideOf signal) t' = true := by
    simp [is_on_cooldown, record_order, List.lookup]
    exact hwin
  rw [hstate]
  refine ⟨?_, ?_, ?_, h1sub⟩
  · simp [execute, hsig, hho2, hcool2]
  · simp [execute, hsig, hho2, hcool2]
  · simp [execute, hsig, hho2, hcool2]
    exact mentionsCooldown_cooldownMsg _ _

/-- Witness for C1: cooldown 60s, first LONG call submits at time 1000, the
second LONG call 30s later is rejected without submitting. -/
theorem C1_second_call_blocked_by_cooldown_witness :
    (execute (execute ⟨"BTCUSDT", 1/1000, "MARKET", 60, []⟩ Signal.LONG
        ⟨Except.ok [], Except.ok ⟨some "12345"⟩⟩ 1000 1000).state Signal.LONG
        ⟨Except.ok [], Except.ok ⟨some "67890"⟩⟩ 1030 1030).result.success
      = false ∧
    (execute (execute ⟨"BTCUSDT", 1/1000, "MARKET", 60, []⟩ Signal.LONG
        ⟨Except.ok [], Except.ok ⟨some "12345"⟩⟩ 1000 1000).state Signal.LONG
        ⟨Except.ok [], Except.ok ⟨some "67890"⟩⟩ 1030 1030).submitted = false ∧
    mentionsCooldown
      (execute (execute ⟨"BTCUSDT", 1/1000, "MARKET", 60, []⟩ Signal.LONG
          ⟨Except.ok [], Except.ok ⟨some "12345"⟩⟩ 1000 1000).state Signal.LONG
          ⟨Except.ok [], Except.ok ⟨some "67890"⟩⟩ 1030 1030).result.message ∧
    (execute ⟨"BTCUSDT", 1/1000, "MARKET", 60, []⟩ Signal.LONG
        ⟨Except.ok [], Except.ok ⟨some "12345"⟩⟩ 1000 1000).submitted = true :=
  C1_second_call_blocked_by_cooldown ⟨"BTCUSDT", 1/1000, "MARKET", 60, []⟩
    Signal.LONG (by decide) ⟨Except.ok [], Except.ok ⟨some "12345"⟩⟩
    ⟨Except.ok [], Except.ok ⟨some "67890"⟩⟩ 1000 1000 1030 1030
    (by decide) (by decide) rfl (by decide)

/-- C5: for every non-HOLD signal, when the open-orders query raises the
exchange-client error, `execute` never calls the order-submission endpoint
and returns a failed `OrderResult`; the failure is treated exactly as if
open orders existed — the whole outcome coincides with that of a call whose
open-orders query returned any non-empty list. -/
theorem C5_open_orders_error_fail_safe (m : OrderManager) (signal : Signal)
    (hsig : signal ≠ Signal.HOLD) (e : BinanceClientError)
    (sub : Except BinanceClientError SubmitResponse)
    (orders : List OpenOrder) (hne : orders ≠ []) (tc tr : ℚ) :
    (execute m signal ⟨Except.error e, sub⟩ tc tr).submitted = false ∧
    (execute m signal ⟨Except.error e, sub⟩ tc tr).result.success = false ∧
    execute m signal ⟨Except.error e, sub⟩ tc tr
      = execute m signal ⟨Except.ok orders, sub⟩ tc tr := by
  have h1 : has_open_orders
      (Except.error e : Except BinanceClientError (List OpenOrder)) = true := rfl
  have h2 : has_open_orders
      (Except.ok orders : Except BinanceClientError (List OpenOrder)) = true := by
    simp [has_open_orders, List.length_pos, hne]
  refine ⟨?_, ?_, ?_⟩ <;> simp [execute, hsig, h1, h2]

/-- Witness for C5: with a failing open-orders query the LONG call submits
nothing, fails, and equals the outcome under a non-empty open-orders
list. -/
theorem C5_open_orders_error_fail_safe_witness :
    (execute ⟨"BTCUSDT", 1/1000, "MARKET", 60, []⟩ Signal.LONG
        ⟨Except.error ⟨"API error", none⟩, Except.ok ⟨some "1"⟩⟩ 1000 1000).submitted
      = false ∧
    (execute ⟨"BTCUSDT", 1/1000, "MARKET", 60, []⟩ Signal.LONG
        ⟨Except.error ⟨"API error", none⟩, Except.ok ⟨some "1"⟩⟩ 1000 1000).result.success
      = false ∧
    execute ⟨"BTCUSDT", 1/1000, "MARKET", 60, []⟩ Signal.LONG
        ⟨Except.error ⟨"API error", none⟩, Except.ok ⟨some "1"⟩⟩ 1000 1000
      = execute ⟨"BTCUSDT", 1/1000, "MARKET", 60, []⟩ Signal.LONG
        ⟨Except.ok [⟨"existing"⟩], Except.ok ⟨some "1"⟩⟩ 1000 1000 :=
  C5_open_orders_error_fail_safe ⟨"BTCUSDT", 1/1000, "MARKET", 60, []⟩
    Signal.LONG (by decide) ⟨"API error", none⟩ (Except.ok ⟨some "1"⟩)
    [⟨"existing"⟩] (by decide) 1000 1000

/-- Not being on cooldown persists as the clock moves forward while the
cooldown map is unchanged. -/
theorem is_on_cooldown_mono (m : OrderManager) (side : String) {t t2 : ℚ}
    (hle : t ≤ t2) (h : is_on_cooldown m side t = false) :
    is_on_cooldown m side t2 = false := by
  simp [is_on_cooldown] at h ⊢
  linarith

/-- C6: the cooldown timestamp is written iff the submission succeeded: on
every failing exit path of `execute` (HOLD, open orders present, open-orders
query failure, cooldown, submission rejection) the cooldown state is
unchanged; after a submission attempt that failed, a later check at any
`t2 ≥ tc` for the same side is not on cooldown, so an immediately following
`execute` for that side is not blocked by cooldown. -/
theorem C6_cooldown_only_on_success (m : OrderManager) (signal : Signal)
    (beh : ExchangeBehavior) (tc tr : ℚ) :
    (¬ ((execute m signal beh tc tr).submitted = true ∧
        (execute m signal beh tc tr).result.success = true) →
      (execute m signal beh tc tr).state = m) ∧
    ((execute m signal beh tc tr).submitted = true ∧
        (execute m signal beh tc tr).result.success = true →
      (execute m signal beh tc tr).state = record_order m (sideOf signal) tr) ∧
    (∀ t2 : ℚ, (execute m signal beh tc tr).submitted = true →
      (execute m signal beh tc tr).result.success = false → tc ≤ t2 →
      is_on_cooldown (execute m signal beh tc tr).state (sideOf signal) t2
        = false) := by
  by_cases hsig : signal = Signal.HOLD
  · simp [execute, hsig]
  · by_cases hho : has_open_orders beh.openOrders
    · simp [execute, hsig, hho]
    · by_cases hco : is_on_cooldown m (sideOf signal) tc
      · simp [execute, hsig, hho, hco]
      · cases hs : beh.submit with
        | ok r => simp [execute, hsig, hho, hco, hs]
        | error e =>
          simp [execute, hsig, hho, hco, hs]
          intro t2 hle
          exact is_on_cooldown_mono m (sideOf signal) hle
            (Bool.eq_false_iff.mpr hco)

/-- Witness for C6: a rejected submission leaves the state unchanged and a
check 1s later is not on cooldown. -/
theorem C6_cooldown_only_on_success_witness :
    (¬ ((execute ⟨"BTCUSDT", 1/1000, "MARKET", 60, []⟩ Signal.LONG
          ⟨Except.ok [], Except.error ⟨"Insufficient balance", none⟩⟩
          1000 1000).submitted = true ∧
        (execute ⟨"BTCUSDT", 1/1000, "MARKET", 60, []⟩ Signal.LONG
          ⟨Except.ok [], Except.error ⟨"Insufficient balance", none⟩⟩
          1000 1000).result.success = true) →
      (execute ⟨"BTCUSDT", 1/1000, "MARKET", 60, []⟩ Signal.LONG
          ⟨Except.ok [], Except.error ⟨"Insufficient balance", none⟩⟩
          1000 1000).state = ⟨"BTCUSDT", 1/1000, "MARKET", 60, []⟩) ∧
    ((execute ⟨"BTCUSDT", 1/1000, "MARKET", 60, []⟩ Signal.LONG
          ⟨Except.ok [], Except.error ⟨"Insufficient balance", none⟩⟩
          1000 1000).submitted = true ∧
        (execute ⟨"BTCUSDT", 1/1000, "MARKET", 60, []⟩ Signal.LONG
          ⟨Except.ok [], Except.error ⟨"Insufficient balance", none⟩⟩
          1000 1000).result.success = true →
      (execute ⟨"BTCUSDT", 1/1000, "MARKET", 60, []⟩ Signal.LONG
          ⟨Except.ok [], Except.error ⟨"Insufficient balance", none⟩⟩
          1000 1000).state
        = record_order ⟨"BTCUSDT", 1/1000, "MARKET", 60, []⟩
            (sideOf Signal.LONG) 1000) ∧
    (∀ t2 : ℚ, (execute ⟨"BTCUSDT", 1/1000, "MARKET", 60, []⟩ Signal.LONG
          ⟨Except.ok [], Except.error ⟨"Insufficient balance", none⟩⟩
          1000 1000).submitted = true →
      (execute ⟨"BTCUSDT", 1/1000, "MARKET", 60, []⟩ Signal.LONG
          ⟨Except.ok [], Except.error ⟨"Insufficient balance", none⟩⟩
          1000 1000).result.success = false → 1000 ≤ t2 →
      is_on_cooldown (execute ⟨"BTCUSDT", 1/1000, "MARKET", 60, []⟩ Signal.LONG
          ⟨Except.ok [], Except.error ⟨"Insufficient balance", none⟩⟩
          1000 1000).state (sideOf Signal.LONG) t2 = false) :=
  C6_cooldown_only_on_success ⟨"BTCUSDT", 1/1000, "MARKET", 60, []⟩
    Signal.LONG ⟨Except.ok [], Except.error ⟨"Insufficient balance", none⟩⟩
    1000 1000

/-- C10: every exit path of `execute` yields an `OrderResult` — the
embedding is a total function into `ExecOutcome`, mirroring that the only
exception the collaborator raises, `BinanceClientError`, is caught on both
call sites — and each collaborator error reaching the call is converted
into a failed `OrderResult` with a descriptive message: the open-orders
failure produces the "open orders exist" skip message, a submission failure
carries the error's own message (`str(e)`) and raw response. -/
theorem C10_never_raises_errors_converted (m : OrderManager)
    (signal : Signal) (beh : ExchangeBehavior) (tc tr : ℚ) :
    (signal = Signal.HOLD →
      execute m signal beh tc tr
        = ⟨{ success := true, message := "HOLD - no order placed" }, m, false⟩) ∧
    (signal ≠ Signal.HOLD → ∀ e, beh.openOrders = Except.error e →
      (execute m signal beh tc tr).result.success = false ∧
      (execute m signal beh tc tr).result.message
        = openOrdersMsg m (sideOf signal) ∧
      (execute m signal beh tc tr).submitted = false) ∧
    (∀ e, beh.submit = Except.error e →
      (execute m signal beh tc tr).submitted = true →
      (execute m signal beh tc tr).result.success = false ∧
      (execute m signal beh tc tr).result.message = e.message ∧
      (execute m signal beh tc tr).result.response = e.response) := by
  by_cases hsig : signal = Signal.HOLD
  · simp [execute, hsig]
  · refine ⟨by simp [hsig], ?_, ?_⟩
    · intro _ e he
      have h1 : has_open_orders beh.openOrders = true := by
        simp [has_open_orders, he]
      simp [execute, hsig, h1]
    · intro e he
      by_cases hho : has_open_orders beh.openOrders
      · simp [execute, hsig, hho]
      · by_cases hco : is_on_cooldown m (sideOf signal) tc
        · simp [execute, hsig, hho, hco]
        · simp [execute, hsig, hho, hco, he]

/-- Witness for C10: a failing submission is converted into a failed
result carrying the error's message. -/
theorem C10_never_raises_errors_converted_witness :
    ((Signal.LONG = Signal.HOLD →
      execute ⟨"BTCUSDT", 1/1000, "MARKET", 60, []⟩ Signal.LONG
          ⟨Except.ok [], Except.error ⟨"Insufficient balance", none⟩⟩ 1000 1000
        = ⟨{ success := true, message := "HOLD - no order placed" },
            ⟨"BTCUSDT", 1/1000, "MARKET", 60, []⟩, false⟩) ∧
    (Signal.LONG ≠ Signal.HOLD → ∀ e,
      (Except.ok [] : Except BinanceClientError (List OpenOrder))
          = Except.error e →
      (execute ⟨"BTCUSDT", 1/1000, "MARKET", 60, []⟩ Signal.LONG
          ⟨Except.ok [], Except.error ⟨"Insufficient balance", none⟩⟩
          1000 1000).result.success = false ∧
      (execute ⟨"BTCUSDT", 1/1000, "MARKET", 60, []⟩ Signal.LONG
          ⟨Except.ok [], Except.error ⟨"Insufficient balance", none⟩⟩
          1000 1000).result.message
        = openOrdersMsg ⟨"BTCUSDT", 1/1000, "MARKET", 60, []⟩
            (sideOf Signal.LONG) ∧
      (execute ⟨"BTCUSDT", 1/1000, "MARKET", 60, []⟩ Signal.LONG
          ⟨Except.ok [], Except.error ⟨"Insufficient balance", none⟩⟩
          1000 1000).submitted = false) ∧
    (∀ e, (Except.error ⟨"Insufficient balance", none⟩ :
            Except BinanceClientError SubmitResponse) = Except.error e →
      (execute ⟨"BTCUSDT", 1/1000, "MARKET", 60, []⟩ Signal.LONG
          ⟨Except.ok [], Except.error ⟨"Insufficient balance", none⟩⟩
          1000 1000).submitted = true →
      (execute ⟨"BTCUSDT", 1/1000, "MARKET", 60, []⟩ Signal.LONG
          ⟨Except.ok [], Except.error ⟨"Insufficient balance", none⟩⟩
          1000 1000).result.success = false ∧
      (execute ⟨"BTCUSDT", 1/1000, "MARKET", 60, []⟩ Signal.LONG
          ⟨Except.ok [], Except.error ⟨"Insufficient balance", none⟩⟩
          1000 1000).result.message = e.message ∧
      (execute ⟨"BTCUSDT", 1/1000, "MARKET", 60, []⟩ Signal.LONG
          ⟨Except.ok [], Except.error ⟨"Insufficient balance", none⟩⟩
          1000 1000).result.response = e.response)) :=
  C10_never_raises_errors_converted ⟨"BTCUSDT", 1/1000, "MARKET", 60, []⟩
    Signal.LONG ⟨Except.ok [], Except.error ⟨"Insufficient balance", none⟩⟩
    1000 1000

/-- C7: immediately after a successful candle fetch (returning a non-empty
list) the cache holds the fetched list with capture time `now`; every
`get_klines` call with `force_refresh = false` issued at `t'` before the
TTL elapses (`t' - now ≤ ttl`) returns the cached sequence and makes no
exchange call, leaving the cache unchanged; a call issued after the TTL has
elapsed (`t' - now > ttl`) performs exactly one new fetch, replaces the
cached sequence in full, and stamps the capture time to `t'`.  The same
staleness policy applies to the quote after a successful fetch of a
non-zero price. -/
theorem C7_ttl_freshness (c : MarketDataCache) (force : Bool) (now t' : ℚ)
    (l : List Candle) (hl : l ≠ [])
    (hf : (get_klines c force now (Except.ok l)).fetched = true)
    (p : ℚ) (hp : p ≠ 0)
    (hfq : (get_ticker_price c force now (Except.ok p)).fetched = true) :
    (get_klines c force now (Except.ok l)).cache
        = update_candles c l now ∧
    (t' - now ≤ (c.ttl_seconds : ℚ) →
      ∀ fetch2, get_klines (get_klines c force now (Except.ok l)).cache
          false t' fetch2
        = ⟨Except.ok l, (get_klines c force now (Except.ok l)).cache, false⟩) ∧
    ((c.ttl_seconds : ℚ) < t' - now →
      ∀ l2, get_klines (get_klines c force now (Except.ok l)).cache
          false t' (Except.ok l2)
        = ⟨Except.ok l2,
           update_candles (get_klines c force now (Except.ok l)).cache l2 t',
           true⟩) ∧
    (get_ticker_price c force now (Except.ok p)).cache
        = update_ticker c p now ∧
    (t' - now ≤ (c.ttl_seconds : ℚ) →
      ∀ fetchq2, get_ticker_price (get_ticker_price c force now (Except.ok p)).cache
          false t' fetchq2
        = ⟨Except.ok p, (get_ticker_price c force now (Except.ok p)).cache,
           false⟩) ∧
    ((c.ttl_seconds : ℚ) < t' - now →
      ∀ p2, get_ticker_price (get_ticker_price c force now (Except.ok p)).cache
          false t' (Except.ok p2)
        = ⟨Except.ok p2,
           update_ticker (get_ticker_price c force now (Except.ok p)).cache p2 t',
           true⟩) := by
  have hc1 : (get_klines c force now (Except.ok l)).cache
      = update_candles c l now := by
    by_cases hcond : (!force && !is_stale c now && !c.candles.isEmpty) = true
    · exfalso
      have h := hf
      simp [get_klines, hcond] at h
    · simp [get_klines, hcond]
  have hq1 : (get_ticker_price c force now (Except.ok p)).cache
      = update_ticker c p now := by
    by_cases hcond : (!force && !is_stale c now && truthyPrice c.ticker_price)
        = true
    · exfalso
      have h := hfq
      simp [get_ticker_price, hcond] at h
    · simp [get_ticker_price, hcond]
  refine ⟨hc1, ?_, ?_, hq1, ?_, ?_⟩
  · intro hfresh fetch2
    have hst : is_stale (update_candles c l now) t' = false := by
      simp [is_stale, update_candles]
      linarith
    rw [hc1]
    simp only [update_candles] at hst
    simp [get_klines, hst, update_candles, List.isEmpty_iff, hl]
  · intro hstale l2
    have hst : is_stale (update_candles c l now) t' = true := by
      simp [is_stale, update_candles]
      linarith
    rw [hc1]
    simp [get_klines, hst]
  · intro hfresh fetchq2
    have hst : is_stale (update_ticker c p now) t' = false := by
      simp [is_stale, update_ticker]
      linarith
    rw [hq1]
    simp only [update_ticker] at hst
    simp [get_ticker_price, hst, update_ticker, truthyPrice, hp]
  · intro hstale p2
    have hst : is_stale (update_ticker c p now) t' = true := by
      simp [is_stale, update_ticker]
      linarith
    rw [hq1]
    simp [get_ticker_price, hst]

/-- Witness for C7: TTL 30s, fetch at time 0; at time 20 the cache is
served with no exchange call even when the exchange is down; the stale-side
instance at time 40 fetches anew and restamps. -/
theorem C7_ttl_freshness_witness :
    get_klines (get_klines ⟨[], none, 0, 30⟩ false 0
        (Except.ok [candleOfClose 10])).cache false 20
        (Except.error ⟨"exchange down", none⟩)
      = ⟨Except.ok [candleOfClose 10],
         (get_klines ⟨[], none, 0, 30⟩ false 0
           (Except.ok [candleOfClose 10])).cache, false⟩ ∧
    get_klines (get_klines ⟨[], none, 0, 30⟩ false 0
        (Except.ok [candleOfClose 10])).cache false 40
        (Except.ok [candleOfClose 11])
      = ⟨Except.ok [candleOfClose 11],
         update_candles
           (get_klines ⟨[], none, 0, 30⟩ false 0
             (Except.ok [candleOfClose 10])).cache [candleOfClose 11] 40,
         true⟩ :=
  ⟨(C7_ttl_freshness ⟨[], none, 0, 30⟩ false 0 20 [candleOfClose 10]
      (by decide) (by decide) 50100 (by decide) (by decide)).2.1
      (by decide) (Except.error ⟨"exchange down", none⟩),
   (C7_ttl_freshness ⟨[], none, 0, 30⟩ false 0 40 [candleOfClose 10]
      (by decide) (by decide) 50100 (by decide) (by decide)).2.2.1
      (by decide) [candleOfClose 11]⟩

/-- C8: an entry with no prior valid write is never served as fresh:
`get_klines` with an empty cached sequence always calls the exchange,
regardless of `force_refresh` and of the clock, and `get_ticker_price` with
no cached price or a cached price of exactly zero always calls the
exchange. -/
theorem C8_unwritten_entry_always_fetches (c : MarketDataCache)
    (force : Bool) (now : ℚ)
    (fc : Except BinanceClientError (List Candle))
    (fq : Except BinanceClientError ℚ) :
    (c.candles = [] → (get_klines c force now fc).fetched = true) ∧
    (c.ticker_price = none ∨ c.ticker_price = some 0 →
      (get_ticker_price c force now fq).fetched = true) := by
  constructor
  · intro hempty
    cases fc with
    | ok l => simp [get_klines, hempty]
    | error e => simp [get_klines, hempty]
  · intro hzero
    have ht : truthyPrice c.ticker_price = false := by
      rcases hzero with h | h <;> simp [truthyPrice, h]
    cases fq with
    | ok p => simp [get_ticker_price, ht]
    | error e => simp [get_ticker_price, ht]

/-- Witness for C8: an empty cache entry fetches even when fresh by the
clock and `force_refresh = false`; a zero cached price fetches too. -/
theorem C8_unwritten_entry_always_fetches_witness :
    ((⟨[], some 0, 0, 30⟩ : MarketDataCache).candles = [] →
      (get_klines ⟨[], some 0, 0, 30⟩ false 5
        (Except.ok [candleOfClose 10])).fetched = true) ∧
    ((⟨[], some 0, 0, 30⟩ : MarketDataCache).ticker_price = none ∨
        (⟨[], some 0, 0, 30⟩ : MarketDataCache).ticker_price = some 0 →
      (get_ticker_price ⟨[], some 0, 0, 30⟩ false 5
        (Except.ok 50100)).fetched = true) :=
  C8_unwritten_entry_always_fetches ⟨[], some 0, 0, 30⟩ false 5
    (Except.ok [candleOfClose 10]) (Except.ok 50100)

/-- C9: when the exchange fetch inside `get_klines` fails, the
`BinanceClientError` propagates to the caller unmodified and the cache is
exactly as before the call — same candle sequence, same capture time. -/
theorem C9_fetch_error_propagates_cache_unchanged (c : MarketDataCache)
    (force : Bool) (now : ℚ) (e : BinanceClientError)
    (hf : (get_klines c force now (Except.error e)).fetched = true) :
    (get_klines c force now (Except.error e)).result = Except.error e ∧
    (get_klines c force now (Except.error e)).cache = c := by
  by_cases hcond : (!force && !is_stale c now && !c.candles.isEmpty) = true
  · exfalso
    have h := hf
    simp [get_klines, hcond] at h
  · simp [get_klines, hcond]

/-- Witness for C9: a failed fetch on a stale, previously written cache
propagates the error and leaves the old snapshot in place. -/
theorem C9_fetch_error_propagates_cache_unchanged_witness :
    (get_klines ⟨[candleOfClose 10], none, 0, 30⟩ false 100
        (Except.error ⟨"timeout", none⟩)).result
      = Except.error ⟨"timeout", none⟩ ∧
    (get_klines ⟨[candleOfClose 10], none, 0, 30⟩ false 100
        (Except.error ⟨"timeout", none⟩)).cache
      = ⟨[candleOfClose 10], none, 0, 30⟩ :=
  C9_fetch_error_propagates_cache_unchanged ⟨[candleOfClose 10], none, 0, 30⟩
    false 100 ⟨"timeout", none⟩ (by decide)

/-- Counterexample to C2 as stated, in two parts, all at TTL 30.

Direct part — "refreshing one entry does not change the staleness (capture
time) of the other" is false: take the cache whose candle list was written
at time 0 (shared stamp 0) and a quote cached as 100.  At time 40 the cache
is stale (conjuncts 1), so a `get_klines` call would refetch.  But a forced
quote refresh at time 25 — which leaves the candle list untouched
(conjunct 3) — restamps the shared clock, after which the cache is no
longer stale at time 40 (conjunct 2), and the `get_klines` call at time 40
with `force_refresh = false` serves the time-0 candle list with no exchange
call (conjuncts 4 and 5), although the candle entry's own last write is 40
time units old, beyond the TTL.

Trace part — "whether each call fetches or serves cache depends only on the
age of its own entry's last successful write" is false: from the empty
cache, the history candles@0 then candles@40 makes the final call fetch
(flags `[true, true]`), while candles@0, quote@25, candles@40 — in which
the final call has the same own-entry write (time 0, conjunct 8, hence the
same own age 40) — makes the final call serve cache (flags
`[true, true, false]`), returning the time-0 candles (conjunct 9). -/
theorem C2_counterexample :
    is_stale ⟨[candleOfClose 10], some 100, 0, 30⟩ 40 = true ∧
    is_stale (get_ticker_price ⟨[candleOfClose 10], some 100, 0, 30⟩ true 25
        (Except.ok 200)).cache 40 = false ∧
    (get_ticker_price ⟨[candleOfClose 10], some 100, 0, 30⟩ true 25
        (Except.ok 200)).cache.candles = [candleOfClose 10] ∧
    (get_klines (get_ticker_price ⟨[candleOfClose 10], some 100, 0, 30⟩ true 25
        (Except.ok 200)).cache false 40
        (Except.ok [candleOfClose 11])).fetched = false ∧
    (get_klines (get_ticker_price ⟨[candleOfClose 10], some 100, 0, 30⟩ true 25
        (Except.ok 200)).cache false 40
        (Except.ok [candleOfClose 11])).cache.candles = [candleOfClose 10] ∧
    (runOps ⟨[], none, 0, 30⟩
      [CacheOp.candlesOp false 0 (Except.ok [candleOfClose 10]),
       CacheOp.candlesOp false 40 (Except.ok [candleOfClose 11])]).2
      = [true, true] ∧
    (runOps ⟨[], none, 0, 30⟩
      [CacheOp.candlesOp false 0 (Except.ok [candleOfClose 10]),
       CacheOp.quoteOp false 25 (Except.ok 100),
       CacheOp.candlesOp false 40 (Except.ok [candleOfClose 11])]).2
      = [true, true, false] ∧
    (runOps ⟨[], none, 0, 30⟩
      [CacheOp.candlesOp false 0 (Except.ok [candleOfClose 10])]).1
      = ⟨[candleOfClose 10], none, 0, 30⟩ ∧
    (runOps ⟨[], none, 0, 30⟩
      [CacheOp.candlesOp false 0 (Except.ok [candleOfClose 10]),
       CacheOp.quoteOp false 25 (Except.ok 100),
       CacheOp.candlesOp false 40 (Except.ok [candleOfClose 11])]).1.candles
      = [candleOfClose 10] := by
  refine ⟨?_, ?_, ?_, ?_, ?_, ?_, ?_, ?_, ?_⟩ <;> decide

/-- C2 amended: the candle and quote values are cached in one
`MarketDataCache` record with a single shared staleness clock
`last_updated`, stamped by a successful refresh of either value; whether a
call fetches or serves cache depends on `force_refresh`, on the age of that
shared clock, and on its own value being present (non-empty candle list,
non-zero price).  Refreshing one value restamps the shared clock — thereby
changing the staleness of the other — but never changes the other entry's
cached value. -/
theorem C2_amended_shared_staleness_clock (c : MarketDataCache)
    (force : Bool) (now : ℚ)
    (fc : Except BinanceClientError (List Candle))
    (fq : Except BinanceClientError ℚ) :
    ((get_klines c force now fc).fetched = false ↔
      force = false ∧ is_stale c now = false ∧ c.candles ≠ []) ∧
    ((get_ticker_price c force now fq).fetched = false ↔
      force = false ∧ is_stale c now = false ∧
        truthyPrice c.ticker_price = true) ∧
    (∀ l, fc = Except.ok l → (get_klines c force now fc).fetched = true →
      (get_klines c force now fc).cache.last_updated = now) ∧
    (∀ p, fq = Except.ok p → (get_ticker_price c force now fq).fetched = true →
      (get_ticker_price c force now fq).cache.last_updated = now) ∧
    (get_klines c force now fc).cache.ticker_price = c.ticker_price ∧
    (get_ticker_price c force now fq).cache.candles = c.candles := by
  refine ⟨?_, ?_, ?_, ?_, ?_, ?_⟩
  · by_cases hcond : (!force && !is_stale c now && !c.candles.isEmpty) = true
    · have h := hcond
      simp only [Bool.and_eq_true, Bool.not_eq_true'] at h
      obtain ⟨⟨hforce, hstale⟩, hempty⟩ := h
      have hne : c.candles ≠ [] := by
        intro hnil
        rw [hnil] at hempty
        exact absurd hempty (by decide)
      simp [get_klines, hcond, hforce, hstale, hne]
    · have h : ¬ (force = false ∧ is_stale c now = false ∧ c.candles ≠ []) := by
        rintro ⟨h1, h2, h3⟩
        apply hcond
        cases hc : c.candles with
        | nil => exact absurd hc h3
        | cons a l => simp [h1, h2, hc]
      cases fc with
      | ok l => simp [get_klines, hcond, h]
      | error e => simp [get_klines, hcond, h]
  · by_cases hcond : (!force && !is_stale c now && truthyPrice c.ticker_price) = true
    · have h := hcond
      simp only [Bool.and_eq_true, Bool.not_eq_true'] at h
      obtain ⟨⟨hforce, hstale⟩, htruthy⟩ := h
      simp [get_ticker_price, hcond, hforce, hstale, htruthy]
    · have h : ¬ (force = false ∧ is_stale c now = false ∧
          truthyPrice c.ticker_price = true) := by
        rintro ⟨h1, h2, h3⟩
        apply hcond
        simp [h1, h2, h3]
      cases fq with
      | ok p => simp [get_ticker_price, hcond, h]
      | error e => simp [get_ticker_price, hcond, h]
  · rintro l rfl hf
    by_cases hcond : (!force && !is_stale c now && !c.candles.isEmpty) = true
    · exfalso
      have h := hf
      simp [get_klines, hcond] at h
    · simp [get_klines, hcond, update_candles]
  · rintro p rfl hf
    by_cases hcond : (!force && !is_stale c now && truthyPrice c.ticker_price) = true
    · exfalso
      have h := hf
      simp [get_ticker_price, hcond] at h
    · simp [get_ticker_price, hcond, update_ticker]
  · by_cases hcond : (!force && !is_stale c now && !c.candles.isEmpty) = true
    · simp [get_klines, hcond]
    · cases fc with
      | ok l => simp [get_klines, hcond, update_candles]
      | error e => simp [get_klines, hcond]
  · by_cases hcond : (!force && !is_stale c now && truthyPrice c.ticker_price) = true
    · simp [get_ticker_price, hcond]
    · cases fq with
      | ok p => simp [get_ticker_price, hcond, update_ticker]
      | error e => simp [get_ticker_price, hcond]

/-- Witness for the amended C2: a cache whose shared clock was stamped at
time 0, read at time 40 (stale), with both values present. -/
theorem C2_amended_shared_staleness_clock_witness :
    ((get_klines ⟨[candleOfClose 10], some 100, 0, 30⟩ false 40
        (Except.ok [candleOfClose 11])).fetched = false ↔
      false = false ∧
        is_stale ⟨[candleOfClose 10], some 100, 0, 30⟩ 40 = false ∧
        (⟨[candleOfClose 10], some 100, 0, 30⟩ : MarketDataCache).candles ≠ []) ∧
    ((get_ticker_price ⟨[candleOfClose 10], some 100, 0, 30⟩ false 40
        (Except.ok 200)).fetched = false ↔
      false = false ∧
        is_stale ⟨[candleOfClose 10], some 100, 0, 30⟩ 40 = false ∧
        truthyPrice (⟨[candleOfClose 10], some 100, 0, 30⟩ :
          MarketDataCache).ticker_price = true) ∧
    (∀ l, (Except.ok [candleOfClose 11] :
          Except BinanceClientError (List Candle)) = Except.ok l →
      (get_klines ⟨[candleOfClose 10], some 100, 0, 30⟩ false 40
        (Except.ok [candleOfClose 11])).fetched = true →
      (get_klines ⟨[candleOfClose 10], some 100, 0, 30⟩ false 40
        (Except.ok [candleOfClose 11])).cache.last_updated = 40) ∧
    (∀ p, (Except.ok 200 : Except BinanceClientError ℚ) = Except.ok p →
      (get_ticker_price ⟨[candleOfClose 10], some 100, 0, 30⟩ false 40
        (Except.ok 200)).fetched = true →
      (get_ticker_price ⟨[candleOfClose 10], some 100, 0, 30⟩ false 40
        (Except.ok 200)).cache.last_updated = 40) ∧
    (get_klines ⟨[candleOfClose 10], some 100, 0, 30⟩ false 40
        (Except.ok [candleOfClose 11])).cache.ticker_price
      = (⟨[candleOfClose 10], some 100, 0, 30⟩ : MarketDataCache).ticker_price ∧
    (get_ticker_price ⟨[candleOfClose 10], some 100, 0, 30⟩ false 40
        (Except.ok 200)).cache.candles
      = (⟨[candleOfClose 10], some 100, 0, 30⟩ : MarketDataCache).candles :=
  C2_amended_shared_staleness_clock ⟨[candleOfClose 10], some 100, 0, 30⟩
    false 40 (Except.ok [candleOfClose 11]) (Except.ok 200)

/-- Counterexample to C3 as stated: `execute` takes no lock, so two
concurrent calls for the same symbol can interleave at the two await
points.  Under the schedule A, B, A, B, A, B (all at time 1000, cooldown
60s, no open orders, both submissions accepted), both calls pass the
open-orders and cooldown gates before either records a cooldown, and both
initiate `place_market_order` and finish successfully: two submissions. -/
theorem C3_counterexample :
    (runSched ⟨Signal.LONG, ⟨Except.ok [], Except.ok ⟨some "11"⟩⟩⟩
        ⟨Signal.LONG, ⟨Except.ok [], Except.ok ⟨some "22"⟩⟩⟩
        (initConc ⟨"BTCUSDT", 1/1000, "MARKET", 60, []⟩)
        [(true, 1000), (false, 1000), (true, 1000),
         (false, 1000), (true, 1000), (false, 1000)]).subA = true ∧
    (runSched ⟨Signal.LONG, ⟨Except.ok [], Except.ok ⟨some "11"⟩⟩⟩
        ⟨Signal.LONG, ⟨Except.ok [], Except.ok ⟨some "22"⟩⟩⟩
        (initConc ⟨"BTCUSDT", 1/1000, "MARKET", 60, []⟩)
        [(true, 1000), (false, 1000), (true, 1000),
         (false, 1000), (true, 1000), (false, 1000)]).subB = true ∧
    finishedSuccess
      (runSched ⟨Signal.LONG, ⟨Except.ok [], Except.ok ⟨some "11"⟩⟩⟩
        ⟨Signal.LONG, ⟨Except.ok [], Except.ok ⟨some "22"⟩⟩⟩
        (initConc ⟨"BTCUSDT", 1/1000, "MARKET", 60, []⟩)
        [(true, 1000), (false, 1000), (true, 1000),
         (false, 1000), (true, 1000), (false, 1000)]).taskA = true ∧
    finishedSuccess
      (runSched ⟨Signal.LONG, ⟨Except.ok [], Except.ok ⟨some "11"⟩⟩⟩
        ⟨Signal.LONG, ⟨Except.ok [], Except.ok ⟨some "22"⟩⟩⟩
        (initConc ⟨"BTCUSDT", 1/1000, "MARKET", 60, []⟩)
        [(true, 1000), (false, 1000), (true, 1000),
         (false, 1000), (true, 1000), (false, 1000)]).taskB = true := by
  refine ⟨?_, ?_, ?_, ?_⟩ <;> decide

/-- C3 amended: the code does not serialize `execute` per symbol.  Two
concurrent `execute(LONG)` calls sharing one manager CAN both pass the
open-orders and cooldown gates and both submit: whenever the side is not on
cooldown and the exchange reports no open orders and accepts both
submissions, the interleaving A, B, A, B, A, B makes both calls initiate
`place_market_order` and finish successfully.  As-if-serial behaviour holds
only when the calls are sequenced (claim C1). -/
theorem C3_amended_interleaving_double_submit (m : OrderManager) (t : ℚ)
    (r1 r2 : SubmitResponse)
    (hcool : is_on_cooldown m "BUY" t = false) :
    (runSched ⟨Signal.LONG, ⟨Except.ok [], Except.ok r1⟩⟩
        ⟨Signal.LONG, ⟨Except.ok [], Except.ok r2⟩⟩ (initConc m)
        [(true, t), (false, t), (true, t),
         (false, t), (true, t), (false, t)]).subA = true ∧
    (runSched ⟨Signal.LONG, ⟨Except.ok [], Except.ok r1⟩⟩
        ⟨Signal.LONG, ⟨Except.ok [], Except.ok r2⟩⟩ (initConc m)
        [(true, t), (false, t), (true, t),
         (false, t), (true, t), (false, t)]).subB = true ∧
    finishedSuccess
      (runSched ⟨Signal.LONG, ⟨Except.ok [], Except.ok r1⟩⟩
        ⟨Signal.LONG, ⟨Except.ok [], Except.ok r2⟩⟩ (initConc m)
        [(true, t), (false, t), (true, t),
         (false, t), (true, t), (false, t)]).taskA = true ∧
    finishedSuccess
      (runSched ⟨Signal.LONG, ⟨Except.ok [], Except.ok r1⟩⟩
        ⟨Signal.LONG, ⟨Except.ok [], Except.ok r2⟩⟩ (initConc m)
        [(true, t), (false, t), (true, t),
         (false, t), (true, t), (false, t)]).taskB = true := by
  refine ⟨?_, ?_, ?_, ?_⟩ <;>
    simp [runSched, schedStep, stepTask, initConc, sideOf,
      has_open_orders, hcool, finishedSuccess]

/-- Witness for the amended C3: fresh manager, schedule at time 2000. -/
theorem C3_amended_interleaving_double_submit_witness :
    (runSched ⟨Signal.LONG, ⟨Except.ok [], Except.ok ⟨some "77"⟩⟩⟩
        ⟨Signal.LONG, ⟨Except.ok [], Except.ok ⟨some "88"⟩⟩⟩
        (initConc ⟨"ETHUSDT", 1/100, "MARKET", 60, []⟩)
        [(true, 2000), (false, 2000), (true, 2000),
         (false, 2000), (true, 2000), (false, 2000)]).subA = true ∧
    (runSched ⟨Signal.LONG, ⟨Except.ok [], Except.ok ⟨some "77"⟩⟩⟩
        ⟨Signal.LONG, ⟨Except.ok [], Except.ok ⟨some "88"⟩⟩⟩
        (initConc ⟨"ETHUSDT", 1/100, "MARKET", 60, []⟩)
        [(true, 2000), (false, 2000), (true, 2000),
         (false, 2000), (true, 2000), (false, 2000)]).subB = true ∧
    finishedSuccess
      (runSched ⟨Signal.LONG, ⟨Except.ok [], Except.ok ⟨some "77"⟩⟩⟩
        ⟨Signal.LONG, ⟨Except.ok [], Except.ok ⟨some "88"⟩⟩⟩
        (initConc ⟨"ETHUSDT", 1/100, "MARKET", 60, []⟩)
        [(true, 2000), (false, 2000), (true, 2000),
         (false, 2000), (true, 2000), (false, 2000)]).taskA = true ∧
    finishedSuccess
      (runSched ⟨Signal.LONG, ⟨Except.ok [], Except.ok ⟨some "77"⟩⟩⟩
        ⟨Signal.LONG, ⟨Except.ok [], Except.ok ⟨some "88"⟩⟩⟩
        (initConc ⟨"ETHUSDT", 1/100, "MARKET", 60, []⟩)
        [(true, 2000), (false, 2000), (true, 2000),
         (false, 2000), (true, 2000), (false, 2000)]).taskB = true :=
  C3_amended_interleaving_double_submit ⟨"ETHUSDT", 1/100, "MARKET", 60, []⟩
    2000 ⟨some "77"⟩ ⟨some "88"⟩ (by decide)

end Cryptex
